import Mathlib

/-!
Verification of the idea-uniqueness pipeline of the `sciento` repository.

The development shallowly embeds `src/app/utils/uniquenessChecker.js` and the
`submitIdea` controller of `src/app/controllers/ideaController.js`:

* JavaScript numbers are modelled as real numbers (`ℝ`); `Math.round` becomes
  `jsRound x = ⌊x + 1/2⌋` (JS rounds half-way cases toward +∞).
* The murmurhash v3 fingerprint used for exact-duplicate detection is embedded
  as arithmetic on `Nat` reduced modulo `2^32`; the JS implementation's
  16-bit-split multiplications are exactly multiplication modulo `2^32`, and
  its bitwise coercions (`ToInt32`) keep every intermediate in `[0, 2^32)`.
  A JS string character `key.charCodeAt(i) & 0xff` is modelled as
  `c.toNat % 256` on the string's characters.
* The asynchronous embedding-service call is modelled as a function parameter
  `provider : Idea → Option FieldVecs`; `none` models a failed HTTP call
  (the `axios.post` rejection), `some` a successful response.  Thrown JS
  errors are modelled with `Except String`.
* Fields that a returned JS object may or may not carry (`hashes`,
  `embeddings`, `fieldUniqueness`, `isRejected`, per-entry `fieldSimilarity`)
  are modelled with `Option` / a `Bool` that is `false` when the key is
  absent.
* The JS cosine-similarity loop iterates `i < vecA.length` and reads
  `vecB[i]`; the embedding reads out-of-range positions as `0`
  (`List.getD`), which coincides with the source whenever the two vectors
  have equal length (the case the specification describes; mismatched
  lengths would produce `NaN` in JS, which has no real-number counterpart).
-/

/-- An idea submission: the five text fields used by the uniqueness check
(`newIdea` in `uniquenessChecker.js`). -/
structure Idea where
  title : String
  description : String
  domain : String
  problemStatement : String
  proposedSolution : String
deriving DecidableEq

/-- Per-field embedding vectors (`embeddings` object); a field key may be
absent (`none`). -/
structure FieldVecs where
  problemStatement : Option (List ℝ)
  proposedSolution : Option (List ℝ)
  description : Option (List ℝ)
  domain : Option (List ℝ)

/-- The stored murmurhash fingerprints (`hashes` object). -/
structure Hashes where
  problemStatement : String
  proposedSolution : String
deriving DecidableEq

/-- An existing idea document from the corpus (the parts of the Mongo
document that `checkIdeaUniqueness` reads: `_id`, `title`, optional
`hashes`, optional `embeddings`). -/
structure StoredIdea where
  ideaId : Nat
  title : String
  hashes : Option Hashes
  embeddings : Option FieldVecs

/- ------------------------------------------------------------------
   Hashing layer: murmurhash v3 (32-bit), `generateHash`.
   ------------------------------------------------------------------ -/

/-- 32-bit truncation. -/
def mask32 (n : Nat) : Nat := n % 4294967296

/-- 32-bit multiplication (the JS source's 16-bit-split multiply-and-mask). -/
def mul32 (a b : Nat) : Nat := (a * b) % 4294967296

/-- 32-bit left rotation (`(x << r) | (x >>> (32 - r))`). -/
def rotl32 (x r : Nat) : Nat :=
  ((x <<< r) % 4294967296) ||| (x >>> (32 - r))

/-- One murmur3 block step: mix a 32-bit block `k` into the running hash. -/
def m3Mix (h1 k : Nat) : Nat :=
  let k1 := mul32 k 0xcc9e2d51
  let k1 := rotl32 k1 15
  let k1 := mul32 k1 0x1b873593
  let h := Nat.xor h1 k1
  let h := rotl32 h 13
  mask32 (mul32 h 5 + 0xe6546b64)

/-- Process the 4-byte blocks of the input; returns the running hash and the
remaining tail of fewer than 4 bytes. -/
def m3Body (h1 : Nat) : List Nat → Nat × List Nat
  | b0 :: b1 :: b2 :: b3 :: rest =>
      m3Body (m3Mix h1 (b0 ||| (b1 <<< 8) ||| (b2 <<< 16) ||| (b3 <<< 24))) rest
  | rest => (h1, rest)

/-- Mix the remaining 1-3 tail bytes (the JS `switch` with fall-through). -/
def m3TailMix (h1 : Nat) : List Nat → Nat
  | [] => h1
  | b0 :: rest =>
      let k1 := b0 ||| ((rest.getD 0 0) <<< 8) ||| ((rest.getD 1 0) <<< 16)
      let k1 := mul32 k1 0xcc9e2d51
      let k1 := rotl32 k1 15
      let k1 := mul32 k1 0x1b873593
      Nat.xor h1 k1

/-- murmur3 finalization mix. -/
def m3Final (h len : Nat) : Nat :=
  let h := Nat.xor h len
  let h := Nat.xor h (h >>> 16)
  let h := mul32 h 0x85ebca6b
  let h := Nat.xor h (h >>> 13)
  let h := mul32 h 0xc2b2ae35
  Nat.xor h (h >>> 16)

/-- `murmurhash.v3(key)` (seed behaves as 0 in the JS package when omitted). -/
def murmurV3 (bytes : List Nat) : Nat :=
  let body := m3Body 0 bytes
  m3Final (m3TailMix body.1 body.2) bytes.length

/-- `generateHash`: murmur3 of the text's low character bytes, rendered in
decimal (`murmurhash.v3(text).toString()`). -/
def generateHash (text : String) : String :=
  toString (murmurV3 (text.data.map (fun c => c.toNat % 256)))

/- ------------------------------------------------------------------
   Exact-match short-circuit: `checkExactMatch`.
   ------------------------------------------------------------------ -/

/-- Loop body of `checkExactMatch`: scan the corpus for a stored hash equal
to either fingerprint of the new idea.  `none` models `{matched:false}`;
`some (id, field)` models `{matched:true, ideaId, field}`. -/
def checkExactMatchGo (psHash solHash : String) : List StoredIdea → Option (Nat × String)
  | [] => none
  | idea :: rest =>
    match idea.hashes with
    | none => checkExactMatchGo psHash solHash rest
    | some h =>
      if h.problemStatement = psHash ∨ h.proposedSolution = solHash then
        some (idea.ideaId,
          if h.problemStatement = psHash then "problemStatement" else "proposedSolution")
      else checkExactMatchGo psHash solHash rest

/-- `checkExactMatch(newIdea, existingIdeas)`. -/
def checkExactMatch (newIdea : Idea) (existingIdeas : List StoredIdea) : Option (Nat × String) :=
  checkExactMatchGo (generateHash newIdea.problemStatement)
    (generateHash newIdea.proposedSolution) existingIdeas

/- ------------------------------------------------------------------
   Embedding client: `getEmbeddings`.
   ------------------------------------------------------------------ -/

/-- `getEmbeddings(idea)`: POSTs the idea's text fields to the embedding
service; a failed call (`provider _ = none`) throws
`Error("Failed to generate embeddings")`. -/
def getEmbeddings (provider : Idea → Option FieldVecs) (idea : Idea) :
    Except String FieldVecs :=
  match provider idea with
  | some e => Except.ok e
  | none => Except.error "Failed to generate embeddings"

/- ------------------------------------------------------------------
   Similarity engine: `cosineSimilarity`, `calculateFieldSimilarity`,
   `similarityToUniqueness`.
   ------------------------------------------------------------------ -/

/-- `dotProduct` accumulated by the loop `for (i = 0; i < vecA.length; i++)`. -/
noncomputable def dotSum (vecA vecB : List ℝ) : ℝ :=
  ∑ i ∈ Finset.range vecA.length, vecA.getD i 0 * vecB.getD i 0

/-- `normA` (respectively `normB`) accumulated by the same loop; the second
argument is the vector being squared, the first supplies the loop bound. -/
noncomputable def sqSum (vecA vecB : List ℝ) : ℝ :=
  ∑ i ∈ Finset.range vecA.length, vecB.getD i 0 * vecB.getD i 0

/-- `cosineSimilarity(vecA, vecB)`.  `none` models a missing (`undefined`)
argument; both the falsy guard and the zero-norm guard return 0. -/
noncomputable def cosineSimilarity : Option (List ℝ) → Option (List ℝ) → ℝ
  | none, _ => 0
  | some _, none => 0
  | some vecA, some vecB =>
    if vecA.length = 0 ∨ vecB.length = 0 then 0
    else
      if sqSum vecA vecA = 0 ∨ sqSum vecA vecB = 0 then 0
      else dotSum vecA vecB / (Real.sqrt (sqSum vecA vecA) * Real.sqrt (sqSum vecA vecB))

/-- One field of `calculateFieldSimilarity`'s loop: the truthiness guard
`newIdeaEmbeddings[field] && existingIdea.embeddings &&
existingIdea.embeddings[field]`, falling back to similarity 0. -/
noncomputable def guardedSim (newField : Option (List ℝ)) (existingEmb : Option FieldVecs)
    (proj : FieldVecs → Option (List ℝ)) : ℝ :=
  match newField, existingEmb with
  | some va, some embs =>
    match proj embs with
    | some vb => cosineSimilarity (some va) (some vb)
    | none => 0
  | _, _ => 0

/-- The per-field similarity object built by `calculateFieldSimilarity`. -/
structure FieldSim where
  problemStatement : ℝ
  proposedSolution : ℝ
  description : ℝ
  domain : ℝ

/-- Return value of `calculateFieldSimilarity`. -/
structure SimResult where
  fieldSimilarity : FieldSim
  overallSimilarity : ℝ

/-- `calculateFieldSimilarity(newIdeaEmbeddings, existingIdea)`: per-field
cosine similarities and their arithmetic mean. -/
noncomputable def calculateFieldSimilarity (newIdeaEmbeddings : FieldVecs)
    (existingIdea : StoredIdea) : SimResult :=
  let sim : FieldSim :=
    { problemStatement :=
        guardedSim newIdeaEmbeddings.problemStatement existingIdea.embeddings
          FieldVecs.problemStatement
      proposedSolution :=
        guardedSim newIdeaEmbeddings.proposedSolution existingIdea.embeddings
          FieldVecs.proposedSolution
      description :=
        guardedSim newIdeaEmbeddings.description existingIdea.embeddings
          FieldVecs.description
      domain :=
        guardedSim newIdeaEmbeddings.domain existingIdea.embeddings
          FieldVecs.domain }
  { fieldSimilarity := sim
    overallSimilarity :=
      (sim.problemStatement + sim.proposedSolution + sim.description + sim.domain) / 4 }

/-- JavaScript `Math.round`: half-way cases round toward `+∞`. -/
noncomputable def jsRound (x : ℝ) : ℤ := ⌊x + 1 / 2⌋

/-- `similarityToUniqueness(similarityScore)`. -/
noncomputable def similarityToUniqueness (similarityScore : ℝ) : ℤ :=
  jsRound ((1 - similarityScore) * 100)

/- ------------------------------------------------------------------
   Corpus comparator: `checkIdeaUniqueness` and its loop state.
   ------------------------------------------------------------------ -/

/-- Integer per-field scores (`lowestUniqueness` / `fieldUniqueness` /
per-entry `fieldSimilarity` objects). -/
structure FieldScores where
  problemStatement : ℤ
  proposedSolution : ℤ
  description : ℤ
  domain : ℤ
deriving DecidableEq

/-- One element of the `similarIdeas` list. -/
structure SimilarEntry where
  ideaId : Nat
  similarityScore : ℤ
  fieldSimilarity : Option FieldScores
  explanation : String
deriving DecidableEq

/-- The result object of `checkIdeaUniqueness`.  `isRejected` is `false`
when the JS object lacks the key; `embeddings`, `hashes` and
`fieldUniqueness` are `none` on the rejection result, which omits them. -/
structure CheckResult where
  uniquenessScore : ℤ
  similarIdeas : List SimilarEntry
  explanation : String
  embeddings : Option FieldVecs
  hashes : Option Hashes
  fieldUniqueness : Option FieldScores
  isRejected : Bool

/-- The `lowestUniqueness` update: per field,
`if (fieldUniqueness < lowestUniqueness[field]) lowestUniqueness[field] = fieldUniqueness`. -/
noncomputable def updateLowest (low : FieldScores) (sim : FieldSim) : FieldScores :=
  { problemStatement :=
      if similarityToUniqueness sim.problemStatement < low.problemStatement then
        similarityToUniqueness sim.problemStatement
      else low.problemStatement
    proposedSolution :=
      if similarityToUniqueness sim.proposedSolution < low.proposedSolution then
        similarityToUniqueness sim.proposedSolution
      else low.proposedSolution
    description :=
      if similarityToUniqueness sim.description < low.description then
        similarityToUniqueness sim.description
      else low.description
    domain :=
      if similarityToUniqueness sim.domain < low.domain then
        similarityToUniqueness sim.domain
      else low.domain }

/-- Stable descending insertion by key: the new element goes in front of the
first element whose key is not larger.  This is the unique stable
descending-sort behaviour of `Array.prototype.sort` with comparator
`(a, b) => key(b) - key(a)`. -/
def insertDescBy {α β : Type} [LinearOrder β] (key : α → β) (x : α) :
    List α → List α
  | [] => [x]
  | y :: ys =>
      if key y ≤ key x then x :: y :: ys else y :: insertDescBy key x ys

/-- Stable descending sort by key (insertion sort). -/
def sortDescBy {α β : Type} [LinearOrder β] (key : α → β) : List α → List α
  | [] => []
  | x :: xs => insertDescBy key x (sortDescBy key xs)

/- ------------------------------------------------------------------
   Explanation generator.
   ------------------------------------------------------------------ -/

/-- JS property lookup `fieldSimilarity[field]` on the four field names. -/
noncomputable def fieldSimValue (fs : FieldSim) : String → ℝ
  | "problemStatement" => fs.problemStatement
  | "proposedSolution" => fs.proposedSolution
  | "description" => fs.description
  | "domain" => fs.domain
  | _ => 0

/-- JS property lookup `fieldUniqueness[field]` on the four field names. -/
def fieldScoreValue (fs : FieldScores) : String → ℤ
  | "problemStatement" => fs.problemStatement
  | "proposedSolution" => fs.proposedSolution
  | "description" => fs.description
  | "domain" => fs.domain
  | _ => 0

/-- The field-name list `Object.keys` yields for the similarity objects
(JS preserves insertion order). -/
def fieldNames : List String :=
  ["problemStatement", "proposedSolution", "description", "domain"]

/-- `generateSimilarityExplanation(fieldSimilarity, ideaTitle)`. -/
noncomputable def generateSimilarityExplanation (fieldSimilarity : FieldSim)
    (ideaTitle : String) : String :=
  let fields := sortDescBy (fieldSimValue fieldSimilarity) fieldNames
  let topSimilarFields :=
    (fields.filter (fun f => decide (fieldSimValue fieldSimilarity f > 1 / 2))).take 2
  if topSimilarFields.length = 0 then
    "Some general similarity with \"" ++ ideaTitle ++ "\"."
  else
    let pieces := topSimilarFields.map (fun f =>
      f ++ " (" ++ toString (jsRound (fieldSimValue fieldSimilarity f * 100)) ++ "% similar)")
    "Similar " ++ String.intercalate " and " pieces ++ " to \"" ++ ideaTitle ++ "\"."

/-- The `forEach` scan for the least-unique field (first field wins ties). -/
def leastUniqueField (fieldUniqueness : FieldScores) : String :=
  (fieldNames.foldl
    (fun acc f =>
      if fieldScoreValue fieldUniqueness f < acc.2 then (f, fieldScoreValue fieldUniqueness f)
      else acc)
    ("problemStatement", fieldUniqueness.problemStatement)).1

/-- `generateUniquenessExplanation(overallUniqueness, fieldUniqueness)`. -/
def generateUniquenessExplanation (overallUniqueness : ℤ)
    (fieldUniqueness : FieldScores) : String :=
  let least := leastUniqueField fieldUniqueness
  if overallUniqueness ≥ 90 then
    "This idea is highly unique compared to existing ideas in this room."
  else if overallUniqueness ≥ 70 then
    "This idea is mostly unique with some similarities to existing ideas."
  else if overallUniqueness ≥ 50 then
    "This idea has moderate uniqueness, with the " ++ least ++
      " being the least unique aspect."
  else if overallUniqueness ≥ 30 then
    "This idea shows significant similarities to existing ideas, particularly in the " ++
      least ++ "."
  else
    "This idea has low uniqueness, with very similar " ++ least ++ " to existing ideas."

/- ------------------------------------------------------------------
   The comparison loop and the top-level check.
   ------------------------------------------------------------------ -/

/-- The `similarIdeas` entry pushed for a sufficiently similar corpus idea. -/
noncomputable def mkSimilarEntry (idea : StoredIdea) (similarity : SimResult) :
    SimilarEntry :=
  { ideaId := idea.ideaId
    similarityScore := jsRound (similarity.overallSimilarity * 100)
    fieldSimilarity := some
      { problemStatement := jsRound (similarity.fieldSimilarity.problemStatement * 100)
        proposedSolution := jsRound (similarity.fieldSimilarity.proposedSolution * 100)
        description := jsRound (similarity.fieldSimilarity.description * 100)
        domain := jsRound (similarity.fieldSimilarity.domain * 100) }
    explanation := generateSimilarityExplanation similarity.fieldSimilarity idea.title }

/-- One iteration of the `for (const idea of existingIdeas)` loop: skip ideas
without embeddings, update the running minima, and push a `similarIdeas`
candidate when the overall similarity exceeds 0.3. -/
noncomputable def processIdea (newIdeaEmbeddings : FieldVecs)
    (st : List SimilarEntry × FieldScores) (idea : StoredIdea) :
    List SimilarEntry × FieldScores :=
  match idea.embeddings with
  | none => st
  | some _ =>
    let similarity := calculateFieldSimilarity newIdeaEmbeddings idea
    let low := updateLowest st.2 similarity.fieldSimilarity
    if similarity.overallSimilarity > 3 / 10 then
      (st.1 ++ [mkSimilarEntry idea similarity], low)
    else (st.1, low)

/-- The embedding-comparison stage of `checkIdeaUniqueness` (the code after
the exact-match short-circuit, given the new idea's embeddings). -/
noncomputable def compareWithCorpus (newIdeaEmbeddings : FieldVecs) (newIdea : Idea)
    (existingIdeas : List StoredIdea) : CheckResult :=
  let hashes : Hashes :=
    { problemStatement := generateHash newIdea.problemStatement
      proposedSolution := generateHash newIdea.proposedSolution }
  let st := existingIdeas.foldl (processIdea newIdeaEmbeddings)
    ([], ⟨100, 100, 100, 100⟩)
  let lowestUniqueness := st.2
  let overallUniqueness := jsRound
    (((lowestUniqueness.problemStatement + lowestUniqueness.proposedSolution +
        lowestUniqueness.description + lowestUniqueness.domain : ℤ) : ℝ) / 4)
  { uniquenessScore := overallUniqueness
    similarIdeas := (sortDescBy SimilarEntry.similarityScore st.1).take 5
    explanation := generateUniquenessExplanation overallUniqueness lowestUniqueness
    embeddings := some newIdeaEmbeddings
    hashes := some hashes
    fieldUniqueness := some lowestUniqueness
    isRejected := false }

/-- `checkIdeaUniqueness(newIdea, existingIdeas)`.  The surrounding
`try/catch` re-throws every failure as
`Error("Failed to analyze idea uniqueness")`. -/
noncomputable def checkIdeaUniqueness (provider : Idea → Option FieldVecs)
    (newIdea : Idea) (existingIdeas : List StoredIdea) :
    Except String CheckResult :=
  if existingIdeas.length = 0 then
    match getEmbeddings provider newIdea with
    | Except.error _ => Except.error "Failed to analyze idea uniqueness"
    | Except.ok embeddings =>
      Except.ok
        { uniquenessScore := 100
          similarIdeas := []
          explanation :=
            "This is the first idea in this room, so it's considered 100% unique."
          embeddings := some embeddings
          hashes := some
            { problemStatement := generateHash newIdea.problemStatement
              proposedSolution := generateHash newIdea.proposedSolution }
          fieldUniqueness := some ⟨100, 100, 100, 100⟩
          isRejected := false }
  else
    match checkExactMatch newIdea existingIdeas with
    | some m =>
      Except.ok
        { uniquenessScore := 0
          similarIdeas := [
            { ideaId := m.1
              similarityScore := 100
              fieldSimilarity := none
              explanation :=
                "This idea has an identical " ++ m.2 ++ " to an existing idea." }]
          explanation :=
            "This idea is rejected because it has an identical " ++ m.2 ++
              " to an existing idea."
          embeddings := none
          hashes := none
          fieldUniqueness := none
          isRejected := true }
    | none =>
      match getEmbeddings provider newIdea with
      | Except.error _ => Except.error "Failed to analyze idea uniqueness"
      | Except.ok newIdeaEmbeddings =>
        Except.ok (compareWithCorpus newIdeaEmbeddings newIdea existingIdeas)

/- ------------------------------------------------------------------
   Controller: `submitIdea` (src/app/controllers/ideaController.js).
   ------------------------------------------------------------------ -/

/-- The JSON request body of `POST /ideas` (all values strings; an absent or
empty value is falsy, modelled as `""`). -/
structure RequestBody where
  title : String
  description : String
  domain : String
  problemStatement : String
  proposedSolution : String
  authorName : String
  authorEmail : String
  roomId : String

/-- The room document fields `submitIdea` reads. -/
structure Room where
  isActive : Bool
  expiresAt : ℤ

/-- What the controller sends back, plus whether `idea.save()` ran. -/
structure SubmitOutcome where
  status : Nat
  success : Bool
  error : Option String
  persisted : Bool
deriving DecidableEq

/-- `req.body[field]` for the required-field validation. -/
def bodyField (b : RequestBody) : String → String
  | "title" => b.title
  | "description" => b.description
  | "domain" => b.domain
  | "problemStatement" => b.problemStatement
  | "proposedSolution" => b.proposedSolution
  | "authorName" => b.authorName
  | "roomId" => b.roomId
  | _ => ""

/-- The `requiredFields` array of `submitIdea` (note: `authorEmail` is not
required). -/
def requiredFields : List String :=
  ["title", "description", "domain", "problemStatement", "proposedSolution",
   "authorName", "roomId"]

/-- `missingFields`: the required fields whose body value is falsy. -/
def missingFields (b : RequestBody) : List String :=
  requiredFields.filter (fun f => bodyField b f = "")

/-- The `newIdea` object the controller builds from the body. -/
def ideaOfBody (b : RequestBody) : Idea :=
  { title := b.title
    description := b.description
    domain := b.domain
    problemStatement := b.problemStatement
    proposedSolution := b.proposedSolution }

/-- `submitIdea(req, res)`: validation, room liveness, the uniqueness check,
the rejection path, and persistence.  `room` models `Room.findById(roomId)`,
`now` the clock read `new Date()`, `existingIdeas` the `Idea.find({roomId})`
result.  Thrown errors surface as a 500 with the error's message. -/
noncomputable def submitIdea (provider : Idea → Option FieldVecs)
    (room : Option Room) (now : ℤ) (existingIdeas : List StoredIdea)
    (body : RequestBody) : SubmitOutcome :=
  if (missingFields body).length > 0 then
    { status := 400, success := false, error := some "Missing required fields",
      persisted := false }
  else
    match room with
    | none =>
      { status := 404, success := false, error := some "Room not found",
        persisted := false }
    | some room =>
      if room.isActive = false ∨ room.expiresAt < now then
        { status := 400, success := false,
          error := some "This room is no longer active or has expired",
          persisted := false }
      else
        match checkIdeaUniqueness provider (ideaOfBody body) existingIdeas with
        | Except.error msg =>
          { status := 500, success := false, error := some msg, persisted := false }
        | Except.ok uniquenessResult =>
          if uniquenessResult.isRejected then
            { status := 400, success := false, error := some "Idea rejected",
              persisted := false }
          else
            { status := 201, success := true, error := none, persisted := true }

/- ------------------------------------------------------------------
   Basic lemmas about the rounding function.
   ------------------------------------------------------------------ -/

/-- `Math.round` of an integer value is that integer. -/
theorem jsRound_intCast (z : ℤ) : jsRound (z : ℝ) = z := by
  unfold jsRound
  rw [Int.floor_eq_iff]
  constructor
  · norm_num
  · linarith

/-- `Math.round` is monotone. -/
theorem jsRound_mono {x y : ℝ} (h : x ≤ y) : jsRound x ≤ jsRound y :=
  Int.floor_le_floor (by linarith)

/-- An integer lower bound below the argument is a lower bound on the
rounding. -/
theorem le_jsRound {z : ℤ} {x : ℝ} (h : (z : ℝ) ≤ x) : z ≤ jsRound x :=
  Int.le_floor.2 (by linarith)

/-- An integer upper bound above the argument is an upper bound on the
rounding. -/
theorem jsRound_le {z : ℤ} {x : ℝ} (h : x ≤ (z : ℝ)) : jsRound x ≤ z := by
  have := jsRound_mono h
  rwa [jsRound_intCast] at this

/- ------------------------------------------------------------------
   Bounds on the cosine similarity (Cauchy-Schwarz).
   ------------------------------------------------------------------ -/

theorem sqSum_nonneg (vecA vecB : List ℝ) : 0 ≤ sqSum vecA vecB := by
  unfold sqSum
  exact Finset.sum_nonneg fun i _ => mul_self_nonneg _

theorem dotSum_le (vecA vecB : List ℝ) :
    dotSum vecA vecB ≤ Real.sqrt (sqSum vecA vecA) * Real.sqrt (sqSum vecA vecB) := by
  have h1 := Real.sum_mul_le_sqrt_mul_sqrt (Finset.range vecA.length)
    (fun i => vecA.getD i 0) (fun i => vecB.getD i 0)
  simpa [dotSum, sqSum, pow_two] using h1

theorem neg_dotSum_le (vecA vecB : List ℝ) :
    -(Real.sqrt (sqSum vecA vecA) * Real.sqrt (sqSum vecA vecB)) ≤ dotSum vecA vecB := by
  have h1 := Real.sum_mul_le_sqrt_mul_sqrt (Finset.range vecA.length)
    (fun i => vecA.getD i 0) (fun i => -(vecB.getD i 0))
  simp only [neg_sq] at h1
  simp only [mul_neg, Finset.sum_neg_distrib] at h1
  simp only [pow_two] at h1
  unfold dotSum sqSum
  linarith [h1]

/-- The cosine similarity always lies in `[-1, 1]`. -/
theorem cosineSimilarity_bounds :
    ∀ a b : Option (List ℝ), -1 ≤ cosineSimilarity a b ∧ cosineSimilarity a b ≤ 1
  | none, b => by constructor <;> norm_num [cosineSimilarity]
  | some vecA, none => by constructor <;> norm_num [cosineSimilarity]
  | some vecA, some vecB => by
    simp only [cosineSimilarity]
    split
    · exact ⟨by norm_num, by norm_num⟩
    split
    · exact ⟨by norm_num, by norm_num⟩
    rename_i hlen hnorm
    push_neg at hnorm
    have hA : 0 < sqSum vecA vecA :=
      lt_of_le_of_ne (sqSum_nonneg vecA vecA) (Ne.symm hnorm.1)
    have hB : 0 < sqSum vecA vecB :=
      lt_of_le_of_ne (sqSum_nonneg vecA vecB) (Ne.symm hnorm.2)
    have hD : 0 < Real.sqrt (sqSum vecA vecA) * Real.sqrt (sqSum vecA vecB) :=
      mul_pos (Real.sqrt_pos.2 hA) (Real.sqrt_pos.2 hB)
    constructor
    · rw [le_div_iff₀ hD]
      have := neg_dotSum_le vecA vecB
      linarith
    · rw [div_le_one hD]
      exact dotSum_le vecA vecB

/-- The guarded per-field similarity also lies in `[-1, 1]`. -/
theorem guardedSim_bounds :
    ∀ (nf : Option (List ℝ)) (existingEmb : Option FieldVecs)
      (proj : FieldVecs → Option (List ℝ)),
      -1 ≤ guardedSim nf existingEmb proj ∧ guardedSim nf existingEmb proj ≤ 1
  | none, _, proj => by constructor <;> norm_num [guardedSim]
  | some va, none, proj => by constructor <;> norm_num [guardedSim]
  | some va, some embs, proj => by
    simp only [guardedSim]
    cases hp : proj embs with
    | none => exact ⟨by norm_num, by norm_num⟩
    | some vb => exact cosineSimilarity_bounds (some va) (some vb)

/- ------------------------------------------------------------------
   Bounds on `similarityToUniqueness`.
   ------------------------------------------------------------------ -/

/-- A similarity bounded above by 1 yields a nonnegative uniqueness. -/
theorem similarityToUniqueness_nonneg {s : ℝ} (h : s ≤ 1) :
    0 ≤ similarityToUniqueness s := by
  unfold similarityToUniqueness
  have : ((0 : ℤ) : ℝ) ≤ (1 - s) * 100 := by push_cast; nlinarith
  exact le_jsRound this

/- ------------------------------------------------------------------
   The exact-match scan finds any existing match.
   ------------------------------------------------------------------ -/

/-- If some corpus idea stores a hash equal to one of the fingerprints, the
scan reports a match. -/
theorem checkExactMatchGo_isSome {psHash solHash : String} :
    ∀ {l : List StoredIdea} {idea : StoredIdea} {h : Hashes},
      idea ∈ l → idea.hashes = some h →
      (h.problemStatement = psHash ∨ h.proposedSolution = solHash) →
      (checkExactMatchGo psHash solHash l).isSome = true := by
  intro l
  induction l with
  | nil => intro idea h hmem _ _; simp at hmem
  | cons a rest ih =>
    intro idea h hmem hh hmatch
    rcases List.mem_cons.1 hmem with rfl | hmem2
    · simp only [checkExactMatchGo, hh]
      rw [if_pos hmatch]
      rfl
    · rcases ha : a.hashes with _ | h2
      · simp only [checkExactMatchGo, ha]
        exact ih hmem2 hh hmatch
      · simp only [checkExactMatchGo, ha]
        split
        · rfl
        · exact ih hmem2 hh hmatch

/- ------------------------------------------------------------------
   Spec-side descriptions of the comparison loop.
   ------------------------------------------------------------------ -/

/-- Spec-side candidate list: the corpus entries carrying embeddings whose
overall similarity strictly exceeds 0.3, in corpus iteration order. -/
noncomputable def specCandidates (emb : FieldVecs) (l : List StoredIdea) :
    List SimilarEntry :=
  l.filterMap fun idea =>
    match idea.embeddings with
    | none => none
    | some _ =>
      if (calculateFieldSimilarity emb idea).overallSimilarity > 3 / 10 then
        some (mkSimilarEntry idea (calculateFieldSimilarity emb idea))
      else none

/-- Spec-side per-field minimum: the minimum, starting from `init`, of the
rounded per-field uniqueness against every corpus entry. -/
noncomputable def specFieldMin (newField : Option (List ℝ))
    (proj : FieldVecs → Option (List ℝ)) (l : List StoredIdea) (init : ℤ) : ℤ :=
  (l.map fun e => similarityToUniqueness (guardedSim newField e.embeddings proj)).foldl
    min init

theorem processIdea_embeddings_none {emb : FieldVecs}
    {st : List SimilarEntry × FieldScores} {idea : StoredIdea}
    (hi : idea.embeddings = none) : processIdea emb st idea = st := by
  simp [processIdea, hi]

theorem processIdea_embeddings_some {emb em : FieldVecs}
    {st : List SimilarEntry × FieldScores} {idea : StoredIdea}
    (hi : idea.embeddings = some em) :
    processIdea emb st idea =
      (if (calculateFieldSimilarity emb idea).overallSimilarity > 3 / 10 then
        st.1 ++ [mkSimilarEntry idea (calculateFieldSimilarity emb idea)]
      else st.1,
      updateLowest st.2 (calculateFieldSimilarity emb idea).fieldSimilarity) := by
  simp only [processIdea, hi]
  split
  · rfl
  · rfl

theorem specCandidates_cons_none {emb : FieldVecs} {idea : StoredIdea}
    {rest : List StoredIdea} (hi : idea.embeddings = none) :
    specCandidates emb (idea :: rest) = specCandidates emb rest := by
  simp [specCandidates, List.filterMap_cons, hi]

theorem specCandidates_cons_some {emb em : FieldVecs} {idea : StoredIdea}
    {rest : List StoredIdea} (hi : idea.embeddings = some em) :
    specCandidates emb (idea :: rest) =
      (if (calculateFieldSimilarity emb idea).overallSimilarity > 3 / 10 then
        [mkSimilarEntry idea (calculateFieldSimilarity emb idea)]
      else []) ++ specCandidates emb rest := by
  by_cases hgt : (calculateFieldSimilarity emb idea).overallSimilarity > 3 / 10
  · simp [specCandidates, List.filterMap_cons, hi, hgt]
  · simp [specCandidates, List.filterMap_cons, hi, hgt]

/-- The first loop-state component collects exactly the spec-side candidate
list, appended after whatever the accumulator already held. -/
theorem foldl_processIdea_fst (emb : FieldVecs) :
    ∀ (l : List StoredIdea) (acc : List SimilarEntry) (low : FieldScores),
      (l.foldl (processIdea emb) (acc, low)).1 = acc ++ specCandidates emb l := by
  intro l
  induction l with
  | nil => intro acc low; simp [specCandidates]
  | cons idea rest ih =>
    intro acc low
    simp only [List.foldl_cons]
    cases hi : idea.embeddings with
    | none =>
      rw [processIdea_embeddings_none hi, specCandidates_cons_none hi]
      exact ih acc low
    | some em =>
      rw [processIdea_embeddings_some hi, specCandidates_cons_some hi]
      split
      · rename_i hgt
        rw [ih (acc ++ [mkSimilarEntry idea (calculateFieldSimilarity emb idea)])
          (updateLowest low (calculateFieldSimilarity emb idea).fieldSimilarity)]
        simp
      · rename_i hgt
        rw [ih acc (updateLowest low (calculateFieldSimilarity emb idea).fieldSimilarity)]
        simp

theorem if_lt_eq_min (u lo : ℤ) : (if u < lo then u else lo) = min lo u := by
  split <;> omega

theorem updateLowest_fields (low : FieldScores) (sim : FieldSim) :
    updateLowest low sim =
      ⟨min low.problemStatement (similarityToUniqueness sim.problemStatement),
       min low.proposedSolution (similarityToUniqueness sim.proposedSolution),
       min low.description (similarityToUniqueness sim.description),
       min low.domain (similarityToUniqueness sim.domain)⟩ := by
  unfold updateLowest
  simp only [FieldScores.mk.injEq]
  exact ⟨if_lt_eq_min _ _, if_lt_eq_min _ _, if_lt_eq_min _ _, if_lt_eq_min _ _⟩

theorem calculateFieldSimilarity_fieldSim (emb : FieldVecs) (idea : StoredIdea) :
    (calculateFieldSimilarity emb idea).fieldSimilarity =
      ⟨guardedSim emb.problemStatement idea.embeddings FieldVecs.problemStatement,
       guardedSim emb.proposedSolution idea.embeddings FieldVecs.proposedSolution,
       guardedSim emb.description idea.embeddings FieldVecs.description,
       guardedSim emb.domain idea.embeddings FieldVecs.domain⟩ := rfl

theorem calculateFieldSimilarity_overall (emb : FieldVecs) (idea : StoredIdea) :
    (calculateFieldSimilarity emb idea).overallSimilarity =
      (guardedSim emb.problemStatement idea.embeddings FieldVecs.problemStatement +
       guardedSim emb.proposedSolution idea.embeddings FieldVecs.proposedSolution +
       guardedSim emb.description idea.embeddings FieldVecs.description +
       guardedSim emb.domain idea.embeddings FieldVecs.domain) / 4 := rfl

theorem specFieldMin_cons (nf : Option (List ℝ)) (proj : FieldVecs → Option (List ℝ))
    (idea : StoredIdea) (rest : List StoredIdea) (init : ℤ) :
    specFieldMin nf proj (idea :: rest) init =
      specFieldMin nf proj rest
        (min init (similarityToUniqueness (guardedSim nf idea.embeddings proj))) := rfl

/-- The second loop-state component tracks, per field, the running minimum of
the per-entry uniqueness scores (when every corpus entry has embeddings). -/
theorem foldl_processIdea_snd (emb : FieldVecs) :
    ∀ (l : List StoredIdea) (acc : List SimilarEntry) (low : FieldScores),
      (∀ e ∈ l, e.embeddings.isSome = true) →
      (l.foldl (processIdea emb) (acc, low)).2 =
        ⟨specFieldMin emb.problemStatement FieldVecs.problemStatement l low.problemStatement,
         specFieldMin emb.proposedSolution FieldVecs.proposedSolution l low.proposedSolution,
         specFieldMin emb.description FieldVecs.description l low.description,
         specFieldMin emb.domain FieldVecs.domain l low.domain⟩ := by
  intro l
  induction l with
  | nil => intro acc low _; simp [specFieldMin]
  | cons idea rest ih =>
    intro acc low hall
    obtain ⟨em, hi⟩ := Option.isSome_iff_exists.1 (hall idea (List.mem_cons_self idea rest))
    simp only [List.foldl_cons]
    rw [processIdea_embeddings_some hi,
        ih _ _ (fun e he => hall e (List.mem_cons_of_mem _ he)),
        updateLowest_fields, calculateFieldSimilarity_fieldSim]
    simp [specFieldMin_cons]

/- ------------------------------------------------------------------
   Unfolding the branches of `checkIdeaUniqueness`.
   ------------------------------------------------------------------ -/

theorem compareWithCorpus_similarIdeas (emb : FieldVecs) (newIdea : Idea)
    (l : List StoredIdea) :
    (compareWithCorpus emb newIdea l).similarIdeas =
      (sortDescBy SimilarEntry.similarityScore (specCandidates emb l)).take 5 := by
  simp only [compareWithCorpus]
  rw [foldl_processIdea_fst]
  simp

theorem compareWithCorpus_fieldUniqueness (emb : FieldVecs) (newIdea : Idea)
    (l : List StoredIdea) (hall : ∀ e ∈ l, e.embeddings.isSome = true) :
    (compareWithCorpus emb newIdea l).fieldUniqueness =
      some ⟨specFieldMin emb.problemStatement FieldVecs.problemStatement l 100,
            specFieldMin emb.proposedSolution FieldVecs.proposedSolution l 100,
            specFieldMin emb.description FieldVecs.description l 100,
            specFieldMin emb.domain FieldVecs.domain l 100⟩ := by
  simp only [compareWithCorpus]
  rw [foldl_processIdea_snd emb l [] ⟨100, 100, 100, 100⟩ hall]

theorem compareWithCorpus_score (emb : FieldVecs) (newIdea : Idea)
    (l : List StoredIdea) (hall : ∀ e ∈ l, e.embeddings.isSome = true) :
    (compareWithCorpus emb newIdea l).uniquenessScore =
      jsRound (((specFieldMin emb.problemStatement FieldVecs.problemStatement l 100 +
                 specFieldMin emb.proposedSolution FieldVecs.proposedSolution l 100 +
                 specFieldMin emb.description FieldVecs.description l 100 +
                 specFieldMin emb.domain FieldVecs.domain l 100 : ℤ) : ℝ) / 4) := by
  simp only [compareWithCorpus]
  rw [foldl_processIdea_snd emb l [] ⟨100, 100, 100, 100⟩ hall]

theorem compareWithCorpus_isRejected (emb : FieldVecs) (newIdea : Idea)
    (l : List StoredIdea) : (compareWithCorpus emb newIdea l).isRejected = false := rfl

theorem checkIdeaUniqueness_empty (provider : Idea → Option FieldVecs)
    (newIdea : Idea) {emb : FieldVecs} (hp : provider newIdea = some emb) :
    checkIdeaUniqueness provider newIdea [] =
      Except.ok
        { uniquenessScore := 100
          similarIdeas := []
          explanation :=
            "This is the first idea in this room, so it's considered 100% unique."
          embeddings := some emb
          hashes := some
            { problemStatement := generateHash newIdea.problemStatement
              proposedSolution := generateHash newIdea.proposedSolution }
          fieldUniqueness := some ⟨100, 100, 100, 100⟩
          isRejected := false } := by
  simp [checkIdeaUniqueness, getEmbeddings, hp]

theorem checkIdeaUniqueness_matched (provider : Idea → Option FieldVecs)
    (newIdea : Idea) (l : List StoredIdea) (m : Nat × String) (hne : l ≠ [])
    (hm : checkExactMatch newIdea l = some m) :
    checkIdeaUniqueness provider newIdea l =
      Except.ok
        { uniquenessScore := 0
          similarIdeas := [
            { ideaId := m.1
              similarityScore := 100
              fieldSimilarity := none
              explanation :=
                "This idea has an identical " ++ m.2 ++ " to an existing idea." }]
          explanation :=
            "This idea is rejected because it has an identical " ++ m.2 ++
              " to an existing idea."
          embeddings := none
          hashes := none
          fieldUniqueness := none
          isRejected := true } := by
  have hlen : ¬ l.length = 0 := fun h => hne (List.length_eq_zero.1 h)
  simp [checkIdeaUniqueness, hlen, hm]

theorem checkIdeaUniqueness_ok (provider : Idea → Option FieldVecs) (newIdea : Idea)
    (l : List StoredIdea) {emb : FieldVecs} (hne : l ≠ [])
    (hnm : checkExactMatch newIdea l = none) (hp : provider newIdea = some emb) :
    checkIdeaUniqueness provider newIdea l =
      Except.ok (compareWithCorpus emb newIdea l) := by
  have hlen : ¬ l.length = 0 := fun h => hne (List.length_eq_zero.1 h)
  simp [checkIdeaUniqueness, hlen, hnm, getEmbeddings, hp]

theorem checkIdeaUniqueness_err (provider : Idea → Option FieldVecs) (newIdea : Idea)
    (l : List StoredIdea) (hnm : checkExactMatch newIdea l = none)
    (hp : provider newIdea = none) :
    checkIdeaUniqueness provider newIdea l =
      Except.error "Failed to analyze idea uniqueness" := by
  rcases l with _ | ⟨a, rest⟩
  · simp [checkIdeaUniqueness, getEmbeddings, hp]
  · simp [checkIdeaUniqueness, hnm, getEmbeddings, hp]

/- ------------------------------------------------------------------
   The stable descending insertion sort: permutation, sortedness,
   stability.
   ------------------------------------------------------------------ -/

theorem insertDescBy_perm {α β : Type} [LinearOrder β] (key : α → β) (x : α) :
    ∀ l : List α, (insertDescBy key x l).Perm (x :: l)
  | [] => List.Perm.refl _
  | y :: ys => by
    simp only [insertDescBy]
    split
    · exact List.Perm.refl _
    · exact ((insertDescBy_perm key x ys).cons y).trans (List.Perm.swap x y ys)

theorem sortDescBy_perm {α β : Type} [LinearOrder β] (key : α → β) :
    ∀ l : List α, (sortDescBy key l).Perm l
  | [] => List.Perm.refl _
  | x :: xs => (insertDescBy_perm key x (sortDescBy key xs)).trans
      ((sortDescBy_perm key xs).cons x)

theorem insertDescBy_pairwise {α β : Type} [LinearOrder β] (key : α → β) (x : α) :
    ∀ {l : List α}, List.Pairwise (fun a b => key b ≤ key a) l →
      List.Pairwise (fun a b => key b ≤ key a) (insertDescBy key x l)
  | [], _ => by simp [insertDescBy]
  | y :: ys, h => by
    simp only [insertDescBy]
    split
    · rename_i hle
      refine List.Pairwise.cons ?_ h
      intro z hz
      rcases List.mem_cons.1 hz with rfl | hz2
      · exact hle
      · exact le_trans ((List.pairwise_cons.1 h).1 z hz2) hle
    · rename_i hlt
      push_neg at hlt
      refine List.Pairwise.cons ?_ (insertDescBy_pairwise key x (List.pairwise_cons.1 h).2)
      intro z hz
      have hz3 := (insertDescBy_perm key x ys).mem_iff.1 hz
      rcases List.mem_cons.1 hz3 with rfl | hz2
      · exact hlt.le
      · exact (List.pairwise_cons.1 h).1 z hz2

theorem sortDescBy_pairwise {α β : Type} [LinearOrder β] (key : α → β) :
    ∀ l : List α, List.Pairwise (fun a b => key b ≤ key a) (sortDescBy key l)
  | [] => List.Pairwise.nil
  | x :: xs => insertDescBy_pairwise key x (sortDescBy_pairwise key xs)

theorem insertDescBy_filter_pos {α β : Type} [LinearOrder β] (key : α → β) (x : α)
    (k : β) (hk : key x = k) :
    ∀ l : List α, (insertDescBy key x l).filter (fun y => decide (key y = k)) =
      x :: l.filter (fun y => decide (key y = k))
  | [] => by simp [insertDescBy, hk]
  | y :: ys => by
    simp only [insertDescBy]
    split
    · rename_i hle
      simp [List.filter_cons, hk]
    · rename_i hlt
      push_neg at hlt
      have hyk : ¬ key y = k := hk ▸ ne_of_gt hlt
      simp only [List.filter_cons, hyk, decide_eq_true_eq, if_false]
      rw [insertDescBy_filter_pos key x k hk ys]

theorem insertDescBy_filter_neg {α β : Type} [LinearOrder β] (key : α → β) (x : α)
    (k : β) (hk : ¬ key x = k) :
    ∀ l : List α, (insertDescBy key x l).filter (fun y => decide (key y = k)) =
      l.filter (fun y => decide (key y = k))
  | [] => by simp [insertDescBy, hk]
  | y :: ys => by
    simp only [insertDescBy]
    split
    · simp [List.filter_cons, hk]
    · simp only [List.filter_cons]
      rw [insertDescBy_filter_neg key x k hk ys]

/-- Stability of the descending sort: for every key value, the elements
carrying that key appear in the output exactly as they appeared in the
input. -/
theorem sortDescBy_filter {α β : Type} [LinearOrder β] (key : α → β) (k : β) :
    ∀ l : List α, (sortDescBy key l).filter (fun y => decide (key y = k)) =
      l.filter (fun y => decide (key y = k))
  | [] => rfl
  | x :: xs => by
    simp only [sortDescBy]
    by_cases hk : key x = k
    · rw [insertDescBy_filter_pos key x k hk, sortDescBy_filter key k xs,
        List.filter_cons]
      simp [hk]
    · rw [insertDescBy_filter_neg key x k hk, sortDescBy_filter key k xs,
        List.filter_cons]
      simp [hk]

/- ------------------------------------------------------------------
   Range invariants of the comparison loop.
   ------------------------------------------------------------------ -/

theorem minimum_step_bounds (lo u : ℤ) (hu : 0 ≤ u) :
    min lo u ≤ lo ∧ (0 ≤ lo → 0 ≤ min lo u) :=
  ⟨min_le_left lo u, fun h => le_min h hu⟩

/-- Over the whole loop, each per-field minimum only decreases and stays
nonnegative (the per-entry uniqueness scores are nonnegative because the
cosine similarity never exceeds 1). -/
theorem foldl_processIdea_snd_bounds (emb : FieldVecs) :
    ∀ (l : List StoredIdea) (acc : List SimilarEntry) (low : FieldScores),
      ((l.foldl (processIdea emb) (acc, low)).2.problemStatement ≤ low.problemStatement ∧
        (0 ≤ low.problemStatement →
          0 ≤ (l.foldl (processIdea emb) (acc, low)).2.problemStatement)) ∧
      ((l.foldl (processIdea emb) (acc, low)).2.proposedSolution ≤ low.proposedSolution ∧
        (0 ≤ low.proposedSolution →
          0 ≤ (l.foldl (processIdea emb) (acc, low)).2.proposedSolution)) ∧
      ((l.foldl (processIdea emb) (acc, low)).2.description ≤ low.description ∧
        (0 ≤ low.description →
          0 ≤ (l.foldl (processIdea emb) (acc, low)).2.description)) ∧
      ((l.foldl (processIdea emb) (acc, low)).2.domain ≤ low.domain ∧
        (0 ≤ low.domain →
          0 ≤ (l.foldl (processIdea emb) (acc, low)).2.domain)) := by
  intro l
  induction l with
  | nil =>
    intro acc low
    simp only [List.foldl_nil]
    exact ⟨⟨le_refl _, id⟩, ⟨le_refl _, id⟩, ⟨le_refl _, id⟩, ⟨le_refl _, id⟩⟩
  | cons idea rest ih =>
    intro acc low
    cases hi : idea.embeddings with
    | none =>
      simp only [List.foldl_cons]
      rw [processIdea_embeddings_none hi]
      exact ih acc low
    | some em =>
      simp only [List.foldl_cons]
      rw [processIdea_embeddings_some hi]
      have hu1 : 0 ≤ similarityToUniqueness
          ((calculateFieldSimilarity emb idea).fieldSimilarity.problemStatement) :=
        similarityToUniqueness_nonneg (by
          rw [calculateFieldSimilarity_fieldSim]
          exact (guardedSim_bounds _ _ _).2)
      have hu2 : 0 ≤ similarityToUniqueness
          ((calculateFieldSimilarity emb idea).fieldSimilarity.proposedSolution) :=
        similarityToUniqueness_nonneg (by
          rw [calculateFieldSimilarity_fieldSim]
          exact (guardedSim_bounds _ _ _).2)
      have hu3 : 0 ≤ similarityToUniqueness
          ((calculateFieldSimilarity emb idea).fieldSimilarity.description) :=
        similarityToUniqueness_nonneg (by
          rw [calculateFieldSimilarity_fieldSim]
          exact (guardedSim_bounds _ _ _).2)
      have hu4 : 0 ≤ similarityToUniqueness
          ((calculateFieldSimilarity emb idea).fieldSimilarity.domain) :=
        similarityToUniqueness_nonneg (by
          rw [calculateFieldSimilarity_fieldSim]
          exact (guardedSim_bounds _ _ _).2)
      rw [updateLowest_fields]
      refine ⟨⟨?_, ?_⟩, ⟨?_, ?_⟩, ⟨?_, ?_⟩, ⟨?_, ?_⟩⟩
      · exact le_trans (ih _ _).1.1 (min_le_left _ _)
      · intro h; exact (ih _ _).1.2 (le_min h hu1)
      · exact le_trans (ih _ _).2.1.1 (min_le_left _ _)
      · intro h; exact (ih _ _).2.1.2 (le_min h hu2)
      · exact le_trans (ih _ _).2.2.1.1 (min_le_left _ _)
      · intro h; exact (ih _ _).2.2.1.2 (le_min h hu3)
      · exact le_trans (ih _ _).2.2.2.1 (min_le_left _ _)
      · intro h; exact (ih _ _).2.2.2.2 (le_min h hu4)

/-- Bounds on an entry produced for the candidate list. -/
theorem mkSimilarEntry_bounds (emb : FieldVecs) (idea : StoredIdea)
    (hgt : (calculateFieldSimilarity emb idea).overallSimilarity > 3 / 10) :
    30 ≤ (mkSimilarEntry idea (calculateFieldSimilarity emb idea)).similarityScore ∧
    (mkSimilarEntry idea (calculateFieldSimilarity emb idea)).similarityScore ≤ 100 ∧
    ∀ fs : FieldScores,
      (mkSimilarEntry idea (calculateFieldSimilarity emb idea)).fieldSimilarity = some fs →
        (-100 ≤ fs.problemStatement ∧ fs.problemStatement ≤ 100) ∧
        (-100 ≤ fs.proposedSolution ∧ fs.proposedSolution ≤ 100) ∧
        (-100 ≤ fs.description ∧ fs.description ≤ 100) ∧
        (-100 ≤ fs.domain ∧ fs.domain ≤ 100) := by
  obtain ⟨g1l, g1u⟩ := guardedSim_bounds emb.problemStatement idea.embeddings
    FieldVecs.problemStatement
  obtain ⟨g2l, g2u⟩ := guardedSim_bounds emb.proposedSolution idea.embeddings
    FieldVecs.proposedSolution
  obtain ⟨g3l, g3u⟩ := guardedSim_bounds emb.description idea.embeddings
    FieldVecs.description
  obtain ⟨g4l, g4u⟩ := guardedSim_bounds emb.domain idea.embeddings FieldVecs.domain
  have hov : (calculateFieldSimilarity emb idea).overallSimilarity ≤ 1 := by
    rw [calculateFieldSimilarity_overall]
    linarith
  simp only [mkSimilarEntry]
  refine ⟨?_, ?_, ?_⟩
  · exact le_jsRound (by push_cast; nlinarith)
  · exact jsRound_le (by push_cast; nlinarith)
  · intro fs hfs
    rw [Option.some.injEq] at hfs
    subst hfs
    rw [calculateFieldSimilarity_fieldSim]
    refine ⟨⟨?_, ?_⟩, ⟨?_, ?_⟩, ⟨?_, ?_⟩, ⟨?_, ?_⟩⟩ <;>
      first
        | exact le_jsRound (by push_cast; nlinarith)
        | exact jsRound_le (by push_cast; nlinarith)

/-- Every candidate-list entry satisfies the score ranges. -/
theorem specCandidates_bounds (emb : FieldVecs) :
    ∀ l : List StoredIdea, ∀ e ∈ specCandidates emb l,
      30 ≤ e.similarityScore ∧ e.similarityScore ≤ 100 ∧
      ∀ fs : FieldScores, e.fieldSimilarity = some fs →
        (-100 ≤ fs.problemStatement ∧ fs.problemStatement ≤ 100) ∧
        (-100 ≤ fs.proposedSolution ∧ fs.proposedSolution ≤ 100) ∧
        (-100 ≤ fs.description ∧ fs.description ≤ 100) ∧
        (-100 ≤ fs.domain ∧ fs.domain ≤ 100) := by
  intro l
  induction l with
  | nil => intro e he; simp [specCandidates] at he
  | cons idea rest ih =>
    intro e he
    cases hi : idea.embeddings with
    | none =>
      rw [specCandidates_cons_none hi] at he
      exact ih e he
    | some em =>
      rw [specCandidates_cons_some hi] at he
      by_cases hgt : (calculateFieldSimilarity emb idea).overallSimilarity > 3 / 10
      · rw [if_pos hgt] at he
        rcases List.mem_append.1 he with he1 | he2
        · have he3 : e = mkSimilarEntry idea (calculateFieldSimilarity emb idea) := by
            simpa using he1
          subst he3
          exact mkSimilarEntry_bounds emb idea hgt
        · exact ih e he2
      · rw [if_neg hgt] at he
        exact ih e (by simpa using he)

theorem compareWithCorpus_uniquenessScore_def (emb : FieldVecs) (newIdea : Idea)
    (l : List StoredIdea) :
    (compareWithCorpus emb newIdea l).uniquenessScore =
      jsRound
        ((((l.foldl (processIdea emb) ([], ⟨100, 100, 100, 100⟩)).2.problemStatement +
           (l.foldl (processIdea emb) ([], ⟨100, 100, 100, 100⟩)).2.proposedSolution +
           (l.foldl (processIdea emb) ([], ⟨100, 100, 100, 100⟩)).2.description +
           (l.foldl (processIdea emb) ([], ⟨100, 100, 100, 100⟩)).2.domain : ℤ) : ℝ) / 4) :=
  rfl

theorem compareWithCorpus_fieldUniqueness_def (emb : FieldVecs) (newIdea : Idea)
    (l : List StoredIdea) :
    (compareWithCorpus emb newIdea l).fieldUniqueness =
      some (l.foldl (processIdea emb) ([], ⟨100, 100, 100, 100⟩)).2 :=
  rfl

/- ------------------------------------------------------------------
   Concrete evaluation helpers.
   ------------------------------------------------------------------ -/

theorem jsRound_eq (x : ℝ) (z : ℤ) (h1 : (z : ℝ) ≤ x + 1 / 2)
    (h2 : x + 1 / 2 < (z : ℝ) + 1) : jsRound x = z := by
  unfold jsRound
  rw [Int.floor_eq_iff]
  exact ⟨h1, h2⟩

theorem similarityToUniqueness_one : similarityToUniqueness 1 = 0 := by
  unfold similarityToUniqueness
  exact jsRound_eq _ 0 (by norm_num) (by norm_num)

theorem similarityToUniqueness_zero : similarityToUniqueness 0 = 100 := by
  unfold similarityToUniqueness
  exact jsRound_eq _ 100 (by norm_num) (by norm_num)

/-- The cosine similarity of a vector `[1]` with itself is 1. -/
theorem cosineSimilarity_one_one :
    cosineSimilarity (some [(1 : ℝ)]) (some [(1 : ℝ)]) = 1 := by
  norm_num [cosineSimilarity, dotSum, sqSum, Finset.sum_range_succ, Real.sqrt_one]

/-- The cosine similarity of the orthogonal unit vectors `[1,0]` and `[0,1]`
is 0. -/
theorem cosineSimilarity_orth :
    cosineSimilarity (some [(1 : ℝ), 0]) (some [(0 : ℝ), 1]) = 0 := by
  norm_num [cosineSimilarity, dotSum, sqSum, Finset.sum_range_succ]

/- ------------------------------------------------------------------
   A concrete scenario: one corpus entry whose problem-statement embedding
   coincides with the new idea's while every other field is orthogonal.
   ------------------------------------------------------------------ -/

/-- A concrete new idea. -/
def ideaCx : Idea :=
  { title := "New idea"
    description := "D"
    domain := "M"
    problemStatement := "P"
    proposedSolution := "S" }

/-- The new idea's embeddings: `[1]` for the problem statement, `[1,0]` for
the other three fields. -/
def embCx : FieldVecs :=
  { problemStatement := some [1]
    proposedSolution := some [1, 0]
    description := some [1, 0]
    domain := some [1, 0] }

/-- The corpus entry: identical problem-statement embedding, orthogonal
embeddings elsewhere, and stored hashes that match neither fingerprint of
`ideaCx`. -/
def entryCx : StoredIdea :=
  { ideaId := 1
    title := "Old idea"
    hashes := some { problemStatement := "stored1", proposedSolution := "stored2" }
    embeddings := some
      { problemStatement := some [1]
        proposedSolution := some [0, 1]
        description := some [0, 1]
        domain := some [0, 1] } }

/-- A provider that always answers with `embCx`. -/
def provCx : Idea → Option FieldVecs := fun _ => some embCx

theorem checkExactMatch_Cx : checkExactMatch ideaCx [entryCx] = none := by decide

theorem calcCx_fieldSim :
    (calculateFieldSimilarity embCx entryCx).fieldSimilarity = ⟨1, 0, 0, 0⟩ := by
  rw [calculateFieldSimilarity_fieldSim]
  simp only [embCx, entryCx, guardedSim]
  rw [cosineSimilarity_one_one, cosineSimilarity_orth]

theorem calcCx_overall :
    (calculateFieldSimilarity embCx entryCx).overallSimilarity = 1 / 4 := by
  rw [calculateFieldSimilarity_overall]
  simp only [embCx, entryCx, guardedSim]
  rw [cosineSimilarity_one_one, cosineSimilarity_orth]
  norm_num

theorem specCandidates_Cx : specCandidates embCx [entryCx] = [] := by
  rw [specCandidates_cons_some (show entryCx.embeddings = some _ from rfl)]
  rw [calcCx_overall]
  rw [if_neg (by norm_num)]
  rfl

theorem specFieldMin_Cx_ps :
    specFieldMin embCx.problemStatement FieldVecs.problemStatement [entryCx] 100 = 0 := by
  rw [specFieldMin_cons]
  have hg : guardedSim embCx.problemStatement entryCx.embeddings
      FieldVecs.problemStatement = 1 := by
    have := calcCx_fieldSim
    rw [calculateFieldSimilarity_fieldSim] at this
    exact congrArg FieldSim.problemStatement this
  rw [hg, similarityToUniqueness_one]
  rfl

theorem specFieldMin_Cx_sol :
    specFieldMin embCx.proposedSolution FieldVecs.proposedSolution [entryCx] 100 = 100 := by
  rw [specFieldMin_cons]
  have hg : guardedSim embCx.proposedSolution entryCx.embeddings
      FieldVecs.proposedSolution = 0 := by
    have := calcCx_fieldSim
    rw [calculateFieldSimilarity_fieldSim] at this
    exact congrArg FieldSim.proposedSolution this
  rw [hg, similarityToUniqueness_zero]
  rfl

theorem specFieldMin_Cx_desc :
    specFieldMin embCx.description FieldVecs.description [entryCx] 100 = 100 := by
  rw [specFieldMin_cons]
  have hg : guardedSim embCx.description entryCx.embeddings FieldVecs.description = 0 := by
    have := calcCx_fieldSim
    rw [calculateFieldSimilarity_fieldSim] at this
    exact congrArg FieldSim.description this
  rw [hg, similarityToUniqueness_zero]
  rfl

theorem specFieldMin_Cx_dom :
    specFieldMin embCx.domain FieldVecs.domain [entryCx] 100 = 100 := by
  rw [specFieldMin_cons]
  have hg : guardedSim embCx.domain entryCx.embeddings FieldVecs.domain = 0 := by
    have := calcCx_fieldSim
    rw [calculateFieldSimilarity_fieldSim] at this
    exact congrArg FieldSim.domain this
  rw [hg, similarityToUniqueness_zero]
  rfl

theorem checkCx_ok :
    checkIdeaUniqueness provCx ideaCx [entryCx] =
      Except.ok (compareWithCorpus embCx ideaCx [entryCx]) :=
  checkIdeaUniqueness_ok provCx ideaCx [entryCx] (by simp) checkExactMatch_Cx rfl

theorem compareCx_fieldUniqueness :
    (compareWithCorpus embCx ideaCx [entryCx]).fieldUniqueness =
      some ⟨0, 100, 100, 100⟩ := by
  rw [compareWithCorpus_fieldUniqueness embCx ideaCx [entryCx] (by simp [entryCx])]
  rw [specFieldMin_Cx_ps, specFieldMin_Cx_sol, specFieldMin_Cx_desc, specFieldMin_Cx_dom]

theorem compareCx_score :
    (compareWithCorpus embCx ideaCx [entryCx]).uniquenessScore = 75 := by
  rw [compareWithCorpus_score embCx ideaCx [entryCx] (by simp [entryCx])]
  rw [specFieldMin_Cx_ps, specFieldMin_Cx_sol, specFieldMin_Cx_desc, specFieldMin_Cx_dom]
  exact jsRound_eq _ 75 (by norm_num) (by norm_num)

theorem compareCx_similarIdeas :
    (compareWithCorpus embCx ideaCx [entryCx]).similarIdeas = [] := by
  rw [compareWithCorpus_similarIdeas, specCandidates_Cx]
  rfl

/- ------------------------------------------------------------------
   Claim theorems.
   ------------------------------------------------------------------ -/

/-- C4: for an empty corpus (and a successful embedding call),
`checkIdeaUniqueness` returns `uniquenessScore = 100`, an empty
`similarIdeas` list, and per-field uniqueness 100 for all four fields. -/
theorem C4_empty_corpus_full_uniqueness (provider : Idea → Option FieldVecs)
    (newIdea : Idea) (emb : FieldVecs) (hp : provider newIdea = some emb) :
    (checkIdeaUniqueness provider newIdea []).map
        (fun r => (r.uniquenessScore, r.similarIdeas, r.fieldUniqueness)) =
      Except.ok (100, [], some ⟨100, 100, 100, 100⟩) := by
  rw [checkIdeaUniqueness_empty provider newIdea hp]
  rfl

/-- Witness for C4 at a concrete provider and idea. -/
theorem C4_witness :
    (checkIdeaUniqueness provCx ideaCx []).map
        (fun r => (r.uniquenessScore, r.similarIdeas, r.fieldUniqueness)) =
      Except.ok (100, [], some ⟨100, 100, 100, 100⟩) :=
  C4_empty_corpus_full_uniqueness provCx ideaCx embCx rfl

/-- C5: `cosineSimilarity` is total with a guarded division: it returns 0 on
absent arguments, empty vectors, or zero norms, and otherwise equals
`dot(a,b) / (‖a‖ * ‖b‖)` with a provably nonzero denominator (no division by
zero can occur). -/
theorem C5_cosine_guarded_total :
    (∀ a : Option (List ℝ),
      cosineSimilarity none a = 0 ∧ cosineSimilarity a none = 0 ∧
      cosineSimilarity a (some []) = 0 ∧ cosineSimilarity (some []) a = 0) ∧
    (∀ va vb : List ℝ, va.length = vb.length →
      ((va = [] ∨ vb = [] ∨ sqSum va va = 0 ∨ sqSum vb vb = 0) →
        cosineSimilarity (some va) (some vb) = 0) ∧
      (va ≠ [] → vb ≠ [] → sqSum va va ≠ 0 → sqSum vb vb ≠ 0 →
        cosineSimilarity (some va) (some vb) =
          dotSum va vb / (Real.sqrt (sqSum va va) * Real.sqrt (sqSum vb vb)) ∧
        Real.sqrt (sqSum va va) * Real.sqrt (sqSum vb vb) ≠ 0)) := by
  constructor
  · intro a
    refine ⟨rfl, ?_, ?_, ?_⟩
    · cases a <;> rfl
    · cases a with
      | none => rfl
      | some va => simp [cosineSimilarity]
    · cases a with
      | none => rfl
      | some vb => simp [cosineSimilarity]
  · intro va vb hlen
    have hss : sqSum va vb = sqSum vb vb := by unfold sqSum; rw [hlen]
    constructor
    · intro hcase
      rcases hcase with h | h | h | h
      · subst h; simp [cosineSimilarity]
      · subst h; simp [cosineSimilarity]
      · simp only [cosineSimilarity]
        split
        · rfl
        · rw [if_pos (Or.inl h)]
      · simp only [cosineSimilarity]
        split
        · rfl
        · rw [if_pos (Or.inr (hss.trans h))]
    · intro hva hvb hA hB
      have hlen0 : ¬ (va.length = 0 ∨ vb.length = 0) := by
        push_neg
        exact ⟨fun h => hva (List.length_eq_zero.1 h),
               fun h => hvb (List.length_eq_zero.1 h)⟩
      have hnorm : ¬ (sqSum va va = 0 ∨ sqSum va vb = 0) := by
        push_neg
        exact ⟨hA, fun hv => hB (hss.symm.trans hv)⟩
      constructor
      · simp only [cosineSimilarity]
        rw [if_neg hlen0, if_neg hnorm, hss]
      · have h1 : 0 < sqSum va va := lt_of_le_of_ne (sqSum_nonneg _ _) (Ne.symm hA)
        have h2 : 0 < sqSum vb vb := lt_of_le_of_ne (sqSum_nonneg _ _) (Ne.symm hB)
        exact ne_of_gt (mul_pos (Real.sqrt_pos.2 h1) (Real.sqrt_pos.2 h2))

/-- Witness for C5 at concrete vectors. -/
theorem C5_witness :
    (cosineSimilarity (some [(1 : ℝ)]) (some [(1 : ℝ)]) =
        dotSum [(1 : ℝ)] [(1 : ℝ)] /
          (Real.sqrt (sqSum [(1 : ℝ)] [(1 : ℝ)]) * Real.sqrt (sqSum [(1 : ℝ)] [(1 : ℝ)])) ∧
      Real.sqrt (sqSum [(1 : ℝ)] [(1 : ℝ)]) * Real.sqrt (sqSum [(1 : ℝ)] [(1 : ℝ)]) ≠ 0) ∧
    cosineSimilarity (some [(1 : ℝ)]) (some []) = 0 :=
  ⟨(C5_cosine_guarded_total.2 [(1 : ℝ)] [(1 : ℝ)] rfl).2 (by simp) (by simp)
      (by norm_num [sqSum, Finset.sum_range_succ])
      (by norm_num [sqSum, Finset.sum_range_succ]),
   (C5_cosine_guarded_total.1 (some [(1 : ℝ)])).2.2.1⟩

/-- C6: `similarityToUniqueness s = round((1 - s) * 100)`, it is monotonically
non-increasing as the similarity increases, and its values at similarity 0
and 1 are 100 and 0. -/
theorem C6_similarity_to_uniqueness :
    (∀ s : ℝ, similarityToUniqueness s = jsRound ((1 - s) * 100)) ∧
    (∀ s t : ℝ, s ≤ t → similarityToUniqueness t ≤ similarityToUniqueness s) ∧
    similarityToUniqueness 0 = 100 ∧ similarityToUniqueness 1 = 0 := by
  refine ⟨fun s => rfl, ?_, similarityToUniqueness_zero, similarityToUniqueness_one⟩
  intro s t h
  unfold similarityToUniqueness
  exact jsRound_mono (by nlinarith)

/-- Witness for C6's monotonicity at 0 ≤ 1. -/
theorem C6_witness :
    (0 : ℝ) ≤ 1 ∧ similarityToUniqueness 1 ≤ similarityToUniqueness 0 :=
  ⟨by norm_num, C6_similarity_to_uniqueness.2.1 0 1 (by norm_num)⟩

/-- C7 (counterexample): in the claimed scenario — one corpus entry with an
identical problem-statement embedding (cosine similarity 1) and orthogonal
embeddings for the other three fields (cosine similarity 0), no exact hash
match — the code returns overall `uniquenessScore = 75`, not the 25 the
claim asserts. -/
theorem C7_counterexample :
    cosineSimilarity (some [(1 : ℝ)]) (some [(1 : ℝ)]) = 1 ∧
    cosineSimilarity (some [(1 : ℝ), 0]) (some [(0 : ℝ), 1]) = 0 ∧
    checkExactMatch ideaCx [entryCx] = none ∧
    (checkIdeaUniqueness provCx ideaCx [entryCx]).map
        (fun r => (r.fieldUniqueness, r.uniquenessScore)) =
      Except.ok (some ⟨0, 100, 100, 100⟩, 75) ∧
    (75 : ℤ) ≠ 25 := by
  refine ⟨cosineSimilarity_one_one, cosineSimilarity_orth, checkExactMatch_Cx, ?_, by decide⟩
  rw [checkCx_ok]
  simp only [Except.map]
  rw [compareCx_fieldUniqueness, compareCx_score]

/-- C7 (amended): in that scenario the result has
`fieldUniqueness.problemStatement = 0`, the other three fields at 100, and
overall `uniquenessScore = 75` — the rounded mean of [0,100,100,100]. -/
theorem C7_amended_scenario :
    checkExactMatch ideaCx [entryCx] = none ∧
    (checkIdeaUniqueness provCx ideaCx [entryCx]).map
        (fun r => (r.fieldUniqueness, r.uniquenessScore, r.isRejected)) =
      Except.ok (some ⟨0, 100, 100, 100⟩, 75, false) := by
  refine ⟨checkExactMatch_Cx, ?_⟩
  rw [checkCx_ok]
  simp only [Except.map]
  rw [compareCx_fieldUniqueness, compareCx_score, compareWithCorpus_isRejected]

/-- C2: if any corpus idea stores a hash equal to the new idea's
problem-statement (or proposed-solution) fingerprint, the check rejects for
every provider — no embedding computation can influence the outcome — and
`submitIdea` answers 400 `"Idea rejected"` without persisting. -/
theorem C2_exact_match_rejects (body : RequestBody) (room : Room) (now : ℤ)
    (existingIdeas : List StoredIdea) (idea : StoredIdea) (h : Hashes)
    (hmem : idea ∈ existingIdeas) (hh : idea.hashes = some h)
    (hmatch : h.problemStatement = generateHash (ideaOfBody body).problemStatement ∨
      h.proposedSolution = generateHash (ideaOfBody body).proposedSolution)
    (hbody : missingFields body = [])
    (hactive : room.isActive = true) (hexp : ¬ room.expiresAt < now) :
    ∀ provider : Idea → Option FieldVecs,
      (checkIdeaUniqueness provider (ideaOfBody body) existingIdeas).map
          (fun r => (r.isRejected, r.uniquenessScore)) = Except.ok (true, 0) ∧
      submitIdea provider (some room) now existingIdeas body =
        { status := 400, success := false, error := some "Idea rejected",
          persisted := false } := by
  intro provider
  have hsome : (checkExactMatch (ideaOfBody body) existingIdeas).isSome = true :=
    checkExactMatchGo_isSome hmem hh hmatch
  obtain ⟨m, hm⟩ := Option.isSome_iff_exists.1 hsome
  have hne : existingIdeas ≠ [] := by
    intro hnil
    subst hnil
    simp at hmem
  have hchk := checkIdeaUniqueness_matched provider (ideaOfBody body) existingIdeas m hne hm
  constructor
  · rw [hchk]
    rfl
  · simp [submitIdea, hbody, hactive, hexp, hchk]

/-- A provider modelling an unreachable embedding service. -/
def provFail : Idea → Option FieldVecs := fun _ => none

/-- A concrete valid request body (its text fields coincide with `ideaCx`). -/
def bodyCx : RequestBody :=
  { title := "New idea"
    description := "D"
    domain := "M"
    problemStatement := "P"
    proposedSolution := "S"
    authorName := "A"
    authorEmail := ""
    roomId := "room1" }

/-- A concrete live room. -/
def roomCx : Room := { isActive := true, expiresAt := 10 }

/-- A corpus entry storing exactly the fingerprint of `bodyCx`'s problem
statement. -/
def entryDup : StoredIdea :=
  { ideaId := 2
    title := "Dup"
    hashes := some
      { problemStatement := generateHash "P"
        proposedSolution := generateHash "X" }
    embeddings := none }

/-- Witness for C2: the duplicate is rejected even though the provider fails. -/
theorem C2_witness :
    (checkIdeaUniqueness provFail (ideaOfBody bodyCx) [entryDup]).map
        (fun r => (r.isRejected, r.uniquenessScore)) = Except.ok (true, 0) ∧
    submitIdea provFail (some roomCx) 0 [entryDup] bodyCx =
      { status := 400, success := false, error := some "Idea rejected",
        persisted := false } :=
  C2_exact_match_rejects bodyCx roomCx 0 [entryDup] entryDup
    ⟨generateHash "P", generateHash "X"⟩ (by simp) rfl (Or.inl rfl) (by decide) rfl
    (by decide) provFail

/-- C8: when the embedding provider fails and no exact match short-circuits,
the whole uniqueness check fails — there is no fallback to hash-only
scoring — and `submitIdea` answers 500 without persisting. -/
theorem C8_embedding_failure_propagates (provider : Idea → Option FieldVecs)
    (body : RequestBody) (room : Room) (now : ℤ) (existingIdeas : List StoredIdea)
    (hp : provider (ideaOfBody body) = none)
    (hnm : checkExactMatch (ideaOfBody body) existingIdeas = none)
    (hbody : missingFields body = [])
    (hactive : room.isActive = true) (hexp : ¬ room.expiresAt < now) :
    checkIdeaUniqueness provider (ideaOfBody body) existingIdeas =
      Except.error "Failed to analyze idea uniqueness" ∧
    submitIdea provider (some room) now existingIdeas body =
      { status := 500, success := false,
        error := some "Failed to analyze idea uniqueness", persisted := false } := by
  have hchk := checkIdeaUniqueness_err provider (ideaOfBody body) existingIdeas hnm hp
  exact ⟨hchk, by simp [submitIdea, hbody, hactive, hexp, hchk]⟩

/-- Witness for C8 on a one-entry corpus with a failing provider. -/
theorem C8_witness :
    checkIdeaUniqueness provFail (ideaOfBody bodyCx) [entryCx] =
      Except.error "Failed to analyze idea uniqueness" ∧
    submitIdea provFail (some roomCx) 0 [entryCx] bodyCx =
      { status := 500, success := false,
        error := some "Failed to analyze idea uniqueness", persisted := false } :=
  C8_embedding_failure_propagates provFail bodyCx roomCx 0 [entryCx] rfl (by decide)
    (by decide) rfl (by decide)

/-- C10: even with an empty corpus the embedding provider is consulted
before the 100%-unique result is produced; if the provider is unreachable
the check throws and `submitIdea` answers 500, not 100% uniqueness. -/
theorem C10_empty_corpus_provider_failure (provider : Idea → Option FieldVecs)
    (body : RequestBody) (room : Room) (now : ℤ)
    (hp : provider (ideaOfBody body) = none)
    (hbody : missingFields body = [])
    (hactive : room.isActive = true) (hexp : ¬ room.expiresAt < now) :
    checkIdeaUniqueness provider (ideaOfBody body) [] =
      Except.error "Failed to analyze idea uniqueness" ∧
    submitIdea provider (some room) now [] body =
      { status := 500, success := false,
        error := some "Failed to analyze idea uniqueness", persisted := false } := by
  have hchk := checkIdeaUniqueness_err provider (ideaOfBody body) [] rfl hp
  exact ⟨hchk, by simp [submitIdea, hbody, hactive, hexp, hchk]⟩

/-- Witness for C10 on the empty corpus. -/
theorem C10_witness :
    checkIdeaUniqueness provFail (ideaOfBody bodyCx) [] =
      Except.error "Failed to analyze idea uniqueness" ∧
    submitIdea provFail (some roomCx) 0 [] bodyCx =
      { status := 500, success := false,
        error := some "Failed to analyze idea uniqueness", persisted := false } :=
  C10_empty_corpus_provider_failure provFail bodyCx roomCx 0 rfl (by decide) rfl
    (by decide)

/-- C1: for a non-empty corpus in which every entry stores embeddings (no
exact match, provider succeeds), the check tracks per field the minimum over
all corpus entries of `round((1 - cos) * 100)` starting from 100, and returns
`uniquenessScore` equal to the rounded arithmetic mean of the four per-field
minima — worst-case per-field uniqueness over the whole corpus, not the
uniqueness against one nearest neighbour. -/
theorem C1_uniqueness_is_mean_of_field_minima (provider : Idea → Option FieldVecs)
    (newIdea : Idea) (existingIdeas : List StoredIdea) (emb : FieldVecs)
    (hne : existingIdeas ≠ [])
    (hall : ∀ e ∈ existingIdeas, e.embeddings.isSome = true)
    (hnm : checkExactMatch newIdea existingIdeas = none)
    (hp : provider newIdea = some emb) :
    (checkIdeaUniqueness provider newIdea existingIdeas).map
        (fun r => (r.fieldUniqueness, r.uniquenessScore)) =
      Except.ok
        (some ⟨specFieldMin emb.problemStatement FieldVecs.problemStatement existingIdeas 100,
               specFieldMin emb.proposedSolution FieldVecs.proposedSolution existingIdeas 100,
               specFieldMin emb.description FieldVecs.description existingIdeas 100,
               specFieldMin emb.domain FieldVecs.domain existingIdeas 100⟩,
         jsRound
           (((specFieldMin emb.problemStatement FieldVecs.problemStatement existingIdeas 100 +
              specFieldMin emb.proposedSolution FieldVecs.proposedSolution existingIdeas 100 +
              specFieldMin emb.description FieldVecs.description existingIdeas 100 +
              specFieldMin emb.domain FieldVecs.domain existingIdeas 100 : ℤ) : ℝ) / 4)) := by
  rw [checkIdeaUniqueness_ok provider newIdea existingIdeas hne hnm hp]
  simp only [Except.map]
  rw [compareWithCorpus_fieldUniqueness _ _ _ hall, compareWithCorpus_score _ _ _ hall]

/-- Witness for C1 at the concrete one-entry corpus. -/
theorem C1_witness :
    (checkIdeaUniqueness provCx ideaCx [entryCx]).map
        (fun r => (r.fieldUniqueness, r.uniquenessScore)) =
      Except.ok
        (some ⟨specFieldMin embCx.problemStatement FieldVecs.problemStatement [entryCx] 100,
               specFieldMin embCx.proposedSolution FieldVecs.proposedSolution [entryCx] 100,
               specFieldMin embCx.description FieldVecs.description [entryCx] 100,
               specFieldMin embCx.domain FieldVecs.domain [entryCx] 100⟩,
         jsRound
           (((specFieldMin embCx.problemStatement FieldVecs.problemStatement [entryCx] 100 +
              specFieldMin embCx.proposedSolution FieldVecs.proposedSolution [entryCx] 100 +
              specFieldMin embCx.description FieldVecs.description [entryCx] 100 +
              specFieldMin embCx.domain FieldVecs.domain [entryCx] 100 : ℤ) : ℝ) / 4)) :=
  C1_uniqueness_is_mean_of_field_minima provCx ideaCx [entryCx] embCx (by simp)
    (by simp [entryCx]) checkExactMatch_Cx rfl

/-- C3: the returned `similarIdeas` list is the stable descending sort, by
`similarityScore`, of exactly those corpus entries whose overall similarity
strictly exceeds 0.3 (an entry at exactly 0.3 is excluded by the strict
comparison in `specCandidates`), truncated to at most 5 entries; the sort is
a permutation of the candidate list, pairwise descending, and keeps entries
of equal score in corpus iteration order. -/
theorem C3_similar_list_sorted_capped (provider : Idea → Option FieldVecs)
    (newIdea : Idea) (existingIdeas : List StoredIdea) (emb : FieldVecs)
    (hne : existingIdeas ≠ [])
    (hnm : checkExactMatch newIdea existingIdeas = none)
    (hp : provider newIdea = some emb) :
    (checkIdeaUniqueness provider newIdea existingIdeas).map (fun r => r.similarIdeas) =
      Except.ok ((sortDescBy SimilarEntry.similarityScore
        (specCandidates emb existingIdeas)).take 5) ∧
    (sortDescBy SimilarEntry.similarityScore (specCandidates emb existingIdeas)).Perm
      (specCandidates emb existingIdeas) ∧
    List.Pairwise (fun a b => b.similarityScore ≤ a.similarityScore)
      ((sortDescBy SimilarEntry.similarityScore (specCandidates emb existingIdeas)).take 5) ∧
    ((sortDescBy SimilarEntry.similarityScore
      (specCandidates emb existingIdeas)).take 5).length ≤ 5 ∧
    (∀ s : ℤ,
      (sortDescBy SimilarEntry.similarityScore (specCandidates emb existingIdeas)).filter
          (fun e => decide (e.similarityScore = s)) =
        (specCandidates emb existingIdeas).filter
          (fun e => decide (e.similarityScore = s))) := by
  refine ⟨?_, sortDescBy_perm _ _, ?_, ?_, fun s => sortDescBy_filter _ s _⟩
  · rw [checkIdeaUniqueness_ok provider newIdea existingIdeas hne hnm hp]
    simp only [Except.map]
    rw [compareWithCorpus_similarIdeas]
  · exact List.Pairwise.sublist (List.take_sublist _ _) (sortDescBy_pairwise _ _)
  · rw [List.length_take]
    exact min_le_left _ _

/-- Witness for C3 at the concrete one-entry corpus. -/
theorem C3_witness :
    (checkIdeaUniqueness provCx ideaCx [entryCx]).map (fun r => r.similarIdeas) =
      Except.ok ((sortDescBy SimilarEntry.similarityScore
        (specCandidates embCx [entryCx])).take 5) ∧
    (sortDescBy SimilarEntry.similarityScore (specCandidates embCx [entryCx])).Perm
      (specCandidates embCx [entryCx]) ∧
    List.Pairwise (fun a b => b.similarityScore ≤ a.similarityScore)
      ((sortDescBy SimilarEntry.similarityScore (specCandidates embCx [entryCx])).take 5) ∧
    ((sortDescBy SimilarEntry.similarityScore
      (specCandidates embCx [entryCx])).take 5).length ≤ 5 ∧
    (∀ s : ℤ,
      (sortDescBy SimilarEntry.similarityScore (specCandidates embCx [entryCx])).filter
          (fun e => decide (e.similarityScore = s)) =
        (specCandidates embCx [entryCx]).filter
          (fun e => decide (e.similarityScore = s))) :=
  C3_similar_list_sorted_capped provCx ideaCx [entryCx] embCx (by simp)
    checkExactMatch_Cx rfl

/- ------------------------------------------------------------------
   A scenario with a negative cosine similarity.
   ------------------------------------------------------------------ -/

theorem cosineSimilarity_one_negone :
    cosineSimilarity (some [(1 : ℝ)]) (some [(-1 : ℝ)]) = -1 := by
  norm_num [cosineSimilarity, dotSum, sqSum, Finset.sum_range_succ, Real.sqrt_one]

/-- New-idea embeddings `[1]` on every field. -/
def embNeg : FieldVecs :=
  { problemStatement := some [1]
    proposedSolution := some [1]
    description := some [1]
    domain := some [1] }

/-- A corpus entry whose problem-statement embedding points the opposite way
(`[-1]`) while every other field matches exactly. -/
def entryNeg : StoredIdea :=
  { ideaId := 3
    title := "Anti"
    hashes := some { problemStatement := "stored1", proposedSolution := "stored2" }
    embeddings := some
      { problemStatement := some [-1]
        proposedSolution := some [1]
        description := some [1]
        domain := some [1] } }

/-- A provider that always answers with `embNeg`. -/
def provNeg : Idea → Option FieldVecs := fun _ => some embNeg

theorem checkExactMatch_Neg : checkExactMatch ideaCx [entryNeg] = none := by decide

theorem calcNeg_fieldSim :
    (calculateFieldSimilarity embNeg entryNeg).fieldSimilarity = ⟨-1, 1, 1, 1⟩ := by
  rw [calculateFieldSimilarity_fieldSim]
  simp only [embNeg, entryNeg, guardedSim]
  rw [cosineSimilarity_one_negone, cosineSimilarity_one_one]

theorem calcNeg_overall :
    (calculateFieldSimilarity embNeg entryNeg).overallSimilarity = 1 / 2 := by
  rw [calculateFieldSimilarity_overall]
  simp only [embNeg, entryNeg, guardedSim]
  rw [cosineSimilarity_one_negone, cosineSimilarity_one_one]
  norm_num

theorem checkNeg_ok :
    checkIdeaUniqueness provNeg ideaCx [entryNeg] =
      Except.ok (compareWithCorpus embNeg ideaCx [entryNeg]) :=
  checkIdeaUniqueness_ok provNeg ideaCx [entryNeg] (by simp) checkExactMatch_Neg rfl

theorem mkNeg_score :
    (mkSimilarEntry entryNeg (calculateFieldSimilarity embNeg entryNeg)).similarityScore
      = 50 := by
  simp only [mkSimilarEntry]
  rw [calcNeg_overall]
  exact jsRound_eq _ 50 (by norm_num) (by norm_num)

theorem mkNeg_fieldSim :
    (mkSimilarEntry entryNeg (calculateFieldSimilarity embNeg entryNeg)).fieldSimilarity
      = some ⟨-100, 100, 100, 100⟩ := by
  simp only [mkSimilarEntry]
  rw [calcNeg_fieldSim]
  refine congrArg some ?_
  have hn : jsRound ((-1 : ℝ) * 100) = -100 :=
    jsRound_eq _ (-100) (by norm_num) (by norm_num)
  have hp : jsRound ((1 : ℝ) * 100) = 100 :=
    jsRound_eq _ 100 (by norm_num) (by norm_num)
  simp only [FieldScores.mk.injEq]
  exact ⟨hn, hp, hp, hp⟩

theorem compareNeg_similar_proj :
    (compareWithCorpus embNeg ideaCx [entryNeg]).similarIdeas.map
        (fun e => (e.similarityScore, e.fieldSimilarity)) =
      [(50, some ⟨-100, 100, 100, 100⟩)] := by
  rw [compareWithCorpus_similarIdeas,
    specCandidates_cons_some (show entryNeg.embeddings = some _ from rfl),
    calcNeg_overall, if_pos (by norm_num : (1 : ℝ) / 2 > 3 / 10),
    show specCandidates embNeg [] = [] from rfl, List.append_nil,
    show sortDescBy SimilarEntry.similarityScore
        [mkSimilarEntry entryNeg (calculateFieldSimilarity embNeg entryNeg)] =
      [mkSimilarEntry entryNeg (calculateFieldSimilarity embNeg entryNeg)] from rfl,
    List.take_of_length_le (by simp), List.map_cons, List.map_nil,
    mkNeg_score, mkNeg_fieldSim]

/-- C9 (counterexample): a non-rejected check can return a similar-entry
whose per-field similarity breakdown contains −100, outside the claimed
[0,100] range — the problem-statement cosine similarity of `[1]` against
`[-1]` is −1, yet the entry's overall similarity (0.5) still exceeds the
0.3 display threshold. -/
theorem C9_counterexample :
    (checkIdeaUniqueness provNeg ideaCx [entryNeg]).map
        (fun r => (r.isRejected,
          r.similarIdeas.map (fun e => (e.similarityScore, e.fieldSimilarity)))) =
      Except.ok (false, [(50, some ⟨-100, 100, 100, 100⟩)]) ∧
    ¬ (0 : ℤ) ≤ (-100 : ℤ) := by
  constructor
  · rw [checkNeg_ok]
    simp only [Except.map]
    rw [compareNeg_similar_proj, compareWithCorpus_isRejected]
  · decide

/-- C9 (amended): for every non-rejected check result, `uniquenessScore` and
every `fieldUniqueness` value are integers in [0,100] and every
similar-entry `similarityScore` is in [0,100]; the per-field similarity
percentages lie in [−100,100] (the cosine similarity can be negative, so the
original lower bound 0 does not hold for them). -/
theorem C9_score_ranges (provider : Idea → Option FieldVecs) (newIdea : Idea)
    (existingIdeas : List StoredIdea) (r : CheckResult)
    (h : checkIdeaUniqueness provider newIdea existingIdeas = Except.ok r)
    (hrej : r.isRejected = false) :
    (0 ≤ r.uniquenessScore ∧ r.uniquenessScore ≤ 100) ∧
    (∀ fs : FieldScores, r.fieldUniqueness = some fs →
      (0 ≤ fs.problemStatement ∧ fs.problemStatement ≤ 100) ∧
      (0 ≤ fs.proposedSolution ∧ fs.proposedSolution ≤ 100) ∧
      (0 ≤ fs.description ∧ fs.description ≤ 100) ∧
      (0 ≤ fs.domain ∧ fs.domain ≤ 100)) ∧
    (∀ e ∈ r.similarIdeas,
      (0 ≤ e.similarityScore ∧ e.similarityScore ≤ 100) ∧
      ∀ fs : FieldScores, e.fieldSimilarity = some fs →
        (-100 ≤ fs.problemStatement ∧ fs.problemStatement ≤ 100) ∧
        (-100 ≤ fs.proposedSolution ∧ fs.proposedSolution ≤ 100) ∧
        (-100 ≤ fs.description ∧ fs.description ≤ 100) ∧
        (-100 ≤ fs.domain ∧ fs.domain ≤ 100)) := by
  by_cases hlen : existingIdeas = []
  · subst hlen
    cases hp : provider newIdea with
    | none =>
      rw [checkIdeaUniqueness_err provider newIdea [] rfl hp] at h
      exact absurd h (by simp)
    | some emb =>
      rw [checkIdeaUniqueness_empty provider newIdea hp, Except.ok.injEq] at h
      subst h
      refine ⟨by norm_num, ?_, ?_⟩
      · intro fs hfs
        have hfs2 : fs = ⟨100, 100, 100, 100⟩ := by simpa using hfs.symm
        subst hfs2
        norm_num
      · intro e he
        simp at he
  · cases hm : checkExactMatch newIdea existingIdeas with
    | some m =>
      rw [checkIdeaUniqueness_matched provider newIdea existingIdeas m hlen hm,
        Except.ok.injEq] at h
      subst h
      simp at hrej
    | none =>
      cases hp : provider newIdea with
      | none =>
        rw [checkIdeaUniqueness_err provider newIdea existingIdeas hm hp] at h
        exact absurd h (by simp)
      | some emb =>
        rw [checkIdeaUniqueness_ok provider newIdea existingIdeas hlen hm hp,
          Except.ok.injEq] at h
        subst h
        obtain ⟨⟨m1, n1⟩, ⟨m2, n2⟩, ⟨m3, n3⟩, ⟨m4, n4⟩⟩ :=
          foldl_processIdea_snd_bounds emb existingIdeas [] ⟨100, 100, 100, 100⟩
        have m1' : (existingIdeas.foldl (processIdea emb)
            ([], ⟨100, 100, 100, 100⟩)).2.problemStatement ≤ 100 := m1
        have m2' : (existingIdeas.foldl (processIdea emb)
            ([], ⟨100, 100, 100, 100⟩)).2.proposedSolution ≤ 100 := m2
        have m3' : (existingIdeas.foldl (processIdea emb)
            ([], ⟨100, 100, 100, 100⟩)).2.description ≤ 100 := m3
        have m4' : (existingIdeas.foldl (processIdea emb)
            ([], ⟨100, 100, 100, 100⟩)).2.domain ≤ 100 := m4
        have n1' : 0 ≤ (existingIdeas.foldl (processIdea emb)
            ([], ⟨100, 100, 100, 100⟩)).2.problemStatement := n1 (by norm_num)
        have n2' : 0 ≤ (existingIdeas.foldl (processIdea emb)
            ([], ⟨100, 100, 100, 100⟩)).2.proposedSolution := n2 (by norm_num)
        have n3' : 0 ≤ (existingIdeas.foldl (processIdea emb)
            ([], ⟨100, 100, 100, 100⟩)).2.description := n3 (by norm_num)
        have n4' : 0 ≤ (existingIdeas.foldl (processIdea emb)
            ([], ⟨100, 100, 100, 100⟩)).2.domain := n4 (by norm_num)
        have c1 : (0 : ℝ) ≤ ((existingIdeas.foldl (processIdea emb)
            ([], ⟨100, 100, 100, 100⟩)).2.problemStatement : ℝ) := by exact_mod_cast n1'
        have c2 : (0 : ℝ) ≤ ((existingIdeas.foldl (processIdea emb)
            ([], ⟨100, 100, 100, 100⟩)).2.proposedSolution : ℝ) := by exact_mod_cast n2'
        have c3 : (0 : ℝ) ≤ ((existingIdeas.foldl (processIdea emb)
            ([], ⟨100, 100, 100, 100⟩)).2.description : ℝ) := by exact_mod_cast n3'
        have c4 : (0 : ℝ) ≤ ((existingIdeas.foldl (processIdea emb)
            ([], ⟨100, 100, 100, 100⟩)).2.domain : ℝ) := by exact_mod_cast n4'
        have u1 : ((existingIdeas.foldl (processIdea emb)
            ([], ⟨100, 100, 100, 100⟩)).2.problemStatement : ℝ) ≤ 100 := by exact_mod_cast m1'
        have u2 : ((existingIdeas.foldl (processIdea emb)
            ([], ⟨100, 100, 100, 100⟩)).2.proposedSolution : ℝ) ≤ 100 := by exact_mod_cast m2'
        have u3 : ((existingIdeas.foldl (processIdea emb)
            ([], ⟨100, 100, 100, 100⟩)).2.description : ℝ) ≤ 100 := by exact_mod_cast m3'
        have u4 : ((existingIdeas.foldl (processIdea emb)
            ([], ⟨100, 100, 100, 100⟩)).2.domain : ℝ) ≤ 100 := by exact_mod_cast m4'
        refine ⟨?_, ?_, ?_⟩
        · rw [compareWithCorpus_uniquenessScore_def]
          constructor
          · apply le_jsRound
            push_cast
            linarith
          · apply jsRound_le
            push_cast
            linarith
        · rw [compareWithCorpus_fieldUniqueness_def]
          intro fs hfs
          rw [Option.some.injEq] at hfs
          subst hfs
          exact ⟨⟨n1', m1'⟩, ⟨n2', m2'⟩, ⟨n3', m3'⟩, ⟨n4', m4'⟩⟩
        · rw [compareWithCorpus_similarIdeas]
          intro e he
          have he2 : e ∈ sortDescBy SimilarEntry.similarityScore
              (specCandidates emb existingIdeas) := List.take_subset _ _ he
          have he3 : e ∈ specCandidates emb existingIdeas :=
            (sortDescBy_perm SimilarEntry.similarityScore
              (specCandidates emb existingIdeas)).mem_iff.1 he2
          obtain ⟨hb1, hb2, hb3⟩ := specCandidates_bounds emb existingIdeas e he3
          exact ⟨⟨by linarith, hb2⟩, hb3⟩

/-- Witness for C9 at the negative-similarity scenario. -/
theorem C9_witness :
    (0 ≤ (compareWithCorpus embNeg ideaCx [entryNeg]).uniquenessScore ∧
      (compareWithCorpus embNeg ideaCx [entryNeg]).uniquenessScore ≤ 100) ∧
    (∀ fs : FieldScores,
      (compareWithCorpus embNeg ideaCx [entryNeg]).fieldUniqueness = some fs →
      (0 ≤ fs.problemStatement ∧ fs.problemStatement ≤ 100) ∧
      (0 ≤ fs.proposedSolution ∧ fs.proposedSolution ≤ 100) ∧
      (0 ≤ fs.description ∧ fs.description ≤ 100) ∧
      (0 ≤ fs.domain ∧ fs.domain ≤ 100)) ∧
    (∀ e ∈ (compareWithCorpus embNeg ideaCx [entryNeg]).similarIdeas,
      (0 ≤ e.similarityScore ∧ e.similarityScore ≤ 100) ∧
      ∀ fs : FieldScores, e.fieldSimilarity = some fs →
        (-100 ≤ fs.problemStatement ∧ fs.problemStatement ≤ 100) ∧
        (-100 ≤ fs.proposedSolution ∧ fs.proposedSolution ≤ 100) ∧
        (-100 ≤ fs.description ∧ fs.description ≤ 100) ∧
        (-100 ≤ fs.domain ∧ fs.domain ≤ 100)) :=
  C9_score_ranges provNeg ideaCx [entryNeg]
    (compareWithCorpus embNeg ideaCx [entryNeg]) checkNeg_ok rfl
